import Mathlib

/-!
Verification of the CRaddress pipeline (src/app.py) against its
natural-language specification.

The development shallowly embeds the four pipeline stages of `app.py`:
the shard loader `load_address_data`, the catalog/manifest join that
produces `school_data_merged`, the polygon spatial filter
(`filtered_mask` / step 8-9 control flow), and the address parser
`parse_address_expanded`.  Python string operations are modelled by
executable Lean functions over `Char` lists with Python semantics
(`str.strip`, `str.join`, `str.replace`, `str.split`, `str.isdigit`,
`int`, `str`).  The external `usaddress.tag` function is modelled as an
abstract parameter `tag : String → TagResult`: it either returns a tag
map (missing labels default to the empty string, as `dict.get(k, "")`
does) or raises `RepeatedLabelError`.  Geometry primitives from shapely
are abstract: a polygon is its strict-containment predicate on points.
-/

namespace CRaddress

/-- Python `str.strip()` applied to a list of characters: drop leading and
trailing whitespace. -/
def pyStripData (cs : List Char) : List Char :=
  ((cs.dropWhile Char.isWhitespace).reverse.dropWhile Char.isWhitespace).reverse

/-- Python `str.strip()`. -/
def pyStrip (s : String) : String := ⟨pyStripData s.data⟩

/-- Python `sep.join(xs)`. -/
def pyJoin (sep : String) : List String → String
  | [] => ""
  | [x] => x
  | x :: xs => x ++ sep ++ pyJoin sep xs

/-- Python `s.replace("–", "-")`: the en-dash is a single character, so the
substring replacement is a character map. -/
def pyReplaceDash (s : String) : String :=
  ⟨s.data.map (fun c => if c = '–' then '-' else c)⟩

/-- Python `s.split("-")` on a list of characters: always returns one part
per separator plus one (so `"".split("-") = [""]`). -/
def pySplitDashData : List Char → List (List Char)
  | [] => [[]]
  | c :: rest =>
    let r := pySplitDashData rest
    if c = '-' then [] :: r
    else
      match r with
      | [] => [[c]]
      | h :: t => (c :: h) :: t

/-- Python `s.split("-")`. -/
def pySplitDash (s : String) : List String :=
  (pySplitDashData s.data).map (fun cs => ⟨cs⟩)

/-- Python `"-" in s`. -/
def pyContainsDash (s : String) : Bool := s.data.contains '-'

/-- Python `s.isdigit()`, restricted to ASCII decimal digits (the only
digit class on which the subsequent `int(s)` call in the source cannot
raise). -/
def pyIsDigit (s : String) : Bool := !s.data.isEmpty && s.data.all Char.isDigit

/-- Python `int(s)` for a string of decimal digits. -/
def pyInt (s : String) : Nat :=
  s.data.foldl (fun acc c => acc * 10 + (c.toNat - 48)) 0

/-- Decimal digits of `n`, most significant first, computed with explicit
fuel so the definition is structurally recursive. -/
def pyStrAux : Nat → Nat → List Char
  | 0, _ => []
  | fuel + 1, n =>
    if n < 10 then [Char.ofNat (48 + n)]
    else pyStrAux fuel (n / 10) ++ [Char.ofNat (48 + n % 10)]

/-- Python `str(n)` for a natural number. -/
def pyStr (n : Nat) : String := ⟨pyStrAux (n + 1) n⟩

/-- The result of `usaddress.tag(line)` as consumed by the source: each
label the source reads, with `""` as the `dict.get` default for a label
the tagger did not produce. -/
structure TagMap where
  AddressNumber : String := ""
  StreetNamePreDirectional : String := ""
  StreetName : String := ""
  StreetNamePostType : String := ""
  StreetNamePostDirectional : String := ""
  OccupancyIdentifier : String := ""
  PlaceName : String := ""
  StateName : String := ""
  ZipCode : String := ""
deriving DecidableEq

/-- Outcome of the external tagging step: either a tag map, or the
`usaddress.RepeatedLabelError` structural-ambiguity exception. -/
inductive TagResult where
  | tagged (parsed : TagMap)
  | repeatedLabelError
deriving DecidableEq

/-- One output dict of `parse_address_expanded`, with the source's keys
`Address`, `Unit`, `City`, `State`, `ZIP`, `Original`. -/
structure ParsedAddressRow where
  Address : String
  Unit : String
  City : String
  State : String
  ZIP : String
  Original : String
deriving DecidableEq

/-- Lines 93-98 of the source: `" ".join([pre, name, posttype, postdir]).strip()`. -/
def streetOf (m : TagMap) : String :=
  pyStrip (pyJoin (" ") [m.StreetNamePreDirectional, m.StreetName,
    m.StreetNamePostType, m.StreetNamePostDirectional])

/-- Line 99 of the source: `f"{house_num} {street}".strip()`. -/
def fullAddressOf (m : TagMap) : String :=
  pyStrip (m.AddressNumber ++ " " ++ streetOf m)

/-- `parse_address_expanded` from src/app.py, parameterized by the external
tagger.  `line : Option String` models the `isinstance(line, str)` check:
`none` is a non-string value (`None` / `nan`). -/
def parse_address_expanded (tag : String → TagResult) (line : Option String) :
    List ParsedAddressRow :=
  match line with
  | none => []
  | some l =>
    match tag l with
    | TagResult.repeatedLabelError =>
      [⟨"", "", "", "", "", l⟩]
    | TagResult.tagged parsed =>
      let full_address := fullAddressOf parsed
      let unit := parsed.OccupancyIdentifier
      let city := parsed.PlaceName
      let state := parsed.StateName
      let zip_code := parsed.ZipCode
      if unit ≠ "" ∧ pyContainsDash unit = true then
        let parts := pySplitDash (pyReplaceDash unit)
        if parts.length = 2 ∧ pyIsDigit (parts.getD 0 ("")) = true ∧
            pyIsDigit (parts.getD 1 ("")) = true then
          let start := pyInt (parts.getD 0 (""))
          let stop := pyInt (parts.getD 1 (""))
          (List.range' start (stop + 1 - start)).map
            (fun u => ⟨full_address, pyStr u, city, state, zip_code, l⟩)
        else
          [⟨full_address, unit, city, state, zip_code, l⟩]
      else
        [⟨full_address, unit, city, state, zip_code, l⟩]

/-- Bool check for two adjacent space characters, used to state the
"no repeated internal spaces" clause of the spec. -/
def hasDoubleSpaceAux : List Char → Bool
  | c1 :: c2 :: rest => (c1 == ' ' && c2 == ' ') || hasDoubleSpaceAux (c2 :: rest)
  | _ => false

/-- A string contains two adjacent spaces. -/
def hasDoubleSpace (s : String) : Bool := hasDoubleSpaceAux s.data

/-- One row of an address shard parquet file, projected to the three
columns the loader reads; `none` models a null / NaN cell. -/
structure ShardRow where
  LAT : Option Int
  LON : Option Int
  FullAddress : Option String
deriving DecidableEq

/-- The Supabase bucket URL prefixed to every shard path (line 14 / 66). -/
def SUPABASE_BASE_URL : String :=
  "https://wrvonobxqimskkiajkft.supabase.co/storage/v1/object/public/data-splits/"

/-- `load_address_data` from src/app.py.  `fetch` models
`pd.read_parquet(url, columns=[...])`: `none` is any per-shard exception.
The second component collects the `st.warning` messages' failed URLs, one
per failed shard, in loop order. -/
def load_address_data (fetch : String → Option (List ShardRow))
    (paths : List String) : List ShardRow × List String :=
  let file_urls := paths.map (fun p => SUPABASE_BASE_URL ++ p)
  if file_urls = [] then ([], [])
  else
    let res := file_urls.foldl
      (fun acc url =>
        match fetch url with
        | some df => (acc.1 ++ [df], acc.2)
        | none => (acc.1, acc.2 ++ [url]))
      (([] : List (List ShardRow)), ([] : List String))
    if res.1 = [] then ([], res.2)
    else (res.1.flatten, res.2)

/-- Line 207 of the source:
`addresses_df.dropna(subset=[ADDRESS_LAT_COLUMN, ADDRESS_LON_COLUMN])`. -/
def dropnaGeo (df : List ShardRow) : List ShardRow :=
  df.filter (fun r => r.LAT.isSome && r.LON.isSome)

/-- Lines 278-281 of the source: the parse loop
`for addr in filtered_df[ADDRESS_FULL_COLUMN]: all_rows.extend(parse_address_expanded(addr))`. -/
def parsedRowsStage (tag : String → TagResult) (df : List ShardRow) :
    List ParsedAddressRow :=
  df.flatMap (fun r => parse_address_expanded tag r.FullAddress)

/-- A planar point as built by `Point(lon, lat)`: `x` is the first
constructor argument, `y` the second. -/
structure Point where
  x : Int
  y : Int
deriving DecidableEq

/-- A shapely polygon, abstracted to its strict-containment predicate
`poly.contains(point)` (boundary points excluded by the library). -/
structure Polygon where
  contains : Point → Bool

/-- One drawn feature from `map_data["all_drawings"]`; `geometry` is the
shapely object produced by `shape(feature["geometry"])`. -/
structure Feature where
  geometry : Polygon

/-- An address record at the filter stage (post-`dropna`, so both
coordinates are present). -/
structure AddressRecord where
  LAT : Int
  LON : Int
  FullAddress : String
deriving DecidableEq

/-- Line 254 of the source: `Point(lon, lat)` — x is the longitude,
y is the latitude. -/
def mkPoint (r : AddressRecord) : Point := ⟨r.LON, r.LAT⟩

/-- Line 260 of the source: the mask
`any(poly.contains(point) for poly in polygons)`. -/
def filtered_mask (polygons : List Polygon) (r : AddressRecord) : Bool :=
  polygons.any (fun poly => poly.contains (mkPoint r))

/-- Line 261 of the source: `addresses_df[filtered_mask]`. -/
def spatialFilter (records : List AddressRecord) (polygons : List Polygon) :
    List AddressRecord :=
  records.filter (filtered_mask polygons)

/-- Steps 8-9 of the source (lines 232-261): if no features were drawn the
app stops before filtering (`none`); otherwise the drawn features become
polygons (line 247) and, when that list is also empty, the app again stops
before filtering; otherwise the filtered frame is produced. -/
def runFilterStep (records : List AddressRecord) (features : List Feature) :
    Option (List AddressRecord) :=
  if features.isEmpty then none
  else
    let polygons := features.map (fun f => f.geometry)
    if polygons.isEmpty then none
    else some (spatialFilter records polygons)

/-- A join-key cell, which may hold a number or a string in the source
tables. -/
inductive JoinId where
  | intId (n : Int)
  | strId (s : String)
deriving DecidableEq

/-- Python `str(n)` for integers (used by `astype(str)` on a numeric
column). -/
def intStr (n : Int) : String :=
  if n < 0 then "-" ++ pyStr n.natAbs else pyStr n.toNat

/-- `astype(str)` applied to one cell. -/
def astypeStr : JoinId → String
  | JoinId.intId n => intStr n
  | JoinId.strId s => s

/-- One row of schools.csv, restricted to the columns the source reads. -/
structure Site where
  EKEY_5 : JoinId
  LABEL : String
  LAT : Int
  LON : Int
deriving DecidableEq

/-- One row of _manifest.csv: a boundary id and its decoded
`file_paths_json` shard-path list. -/
structure ManifestRow where
  boundary_id : JoinId
  file_paths_json : List String
deriving DecidableEq

/-- Lines 156-164 of the source: both join keys are string-cast and
`schools` is left-merged with `manifest` on them.  Per left row, the
matching manifest rows in manifest order, or a single row with a null
`file_paths_json` when nothing matches. -/
def school_data_merged (schools : List Site) (manifest : List ManifestRow) :
    List (Site × Option (List String)) :=
  schools.flatMap (fun s =>
    let ms := manifest.filter
      (fun m => astypeStr m.boundary_id = astypeStr s.EKEY_5)
    if ms = [] then [(s, none)]
    else ms.map (fun m => (s, some m.file_paths_json)))

/-- The diagnostic shown when the merge matches nothing (line 167). -/
def mergeFailedMsg : String :=
  "Data Merge Failed: No schools matched a boundary in the manifest."

/-- Lines 166-169 of the source: abort with the merge-failure diagnostic
exactly when `school_data_merged['file_paths_json'].isnull().all()`. -/
def resolveStep (schools : List Site) (manifest : List ManifestRow) :
    Except String (List (Site × Option (List String))) :=
  let merged := school_data_merged schools manifest
  if merged.all (fun p => p.2.isNone) then Except.error mergeFailedMsg
  else Except.ok merged

/-- The unit-token shape on which the expansion loop of the source produces
zero rows: an ASCII-hyphenated token splitting into two digit parts whose
first part exceeds the second. -/
def invertedRangeUnit (u : String) : Bool :=
  pyContainsDash u &&
  ((pySplitDash (pyReplaceDash u)).length == 2) &&
  pyIsDigit ((pySplitDash (pyReplaceDash u)).getD 0 ("")) &&
  pyIsDigit ((pySplitDash (pyReplaceDash u)).getD 1 ("")) &&
  decide (pyInt ((pySplitDash (pyReplaceDash u)).getD 1 ("")) <
    pyInt ((pySplitDash (pyReplaceDash u)).getD 0 ("")))

/-- A tagger that always raises `RepeatedLabelError`, modelling a line the
tagging step cannot disambiguate. -/
def tagRepeatErr : String → TagResult := fun _ => TagResult.repeatedLabelError

/-- A tagger extracting no labels at all (every `dict.get` default fires):
the behaviour of the tagging step on a line with no recognizable tokens,
such as the empty string. -/
def tagEmptyLabels : String → TagResult := fun _ => TagResult.tagged {}

/-- Tag output for the spec's round-trip example line
`123 N Main St Apt 4-6, Springfield, IL 60001`. -/
def mapRange46 : TagMap :=
  { AddressNumber := "123"
    StreetNamePreDirectional := "N"
    StreetName := "Main"
    StreetNamePostType := "St"
    OccupancyIdentifier := "4-6"
    PlaceName := "Springfield"
    StateName := "IL"
    ZipCode := "60001" }

/-- Tagger producing `mapRange46` for its line. -/
def tagRange46 : String → TagResult := fun _ => TagResult.tagged mapRange46

/-- The round-trip example line of the spec. -/
def lineRange46 : String := "123 N Main St Apt 4-6, Springfield, IL 60001"

/-- Tag output whose unit token uses only the en-dash variant. -/
def mapEnDashOnly : TagMap :=
  { AddressNumber := "10"
    StreetName := "Main"
    OccupancyIdentifier := "4–6" }

/-- Tagger producing `mapEnDashOnly`. -/
def tagEnDashOnly : String → TagResult := fun _ => TagResult.tagged mapEnDashOnly

/-- Tag output whose unit token is a hyphenated range with the bounds
inverted. -/
def mapInverted : TagMap := { OccupancyIdentifier := "5-3" }

/-- Tagger producing `mapInverted`. -/
def tagInverted : String → TagResult := fun _ => TagResult.tagged mapInverted

/-- Tag output with a pre-directional and a post-type but no street name:
the middle component of the four-element join is empty. -/
def mapGapComponents : TagMap :=
  { AddressNumber := "123"
    StreetNamePreDirectional := "N"
    StreetNamePostType := "St" }

/-- Tagger producing `mapGapComponents`. -/
def tagGapComponents : String → TagResult :=
  fun _ => TagResult.tagged mapGapComponents

/-- Tag output whose hyphenated unit token has a non-numeric part. -/
def mapUnitLetter : TagMap :=
  { AddressNumber := "77"
    StreetName := "Oak"
    OccupancyIdentifier := "4-B" }

/-- Tagger producing `mapUnitLetter`. -/
def tagUnitLetter : String → TagResult := fun _ => TagResult.tagged mapUnitLetter

/-- A concrete address record for the spatial-filter witness: latitude 10,
longitude 30. -/
def recFilter : AddressRecord := ⟨10, 30, "1 A St"⟩

/-- A polygon containing exactly the point with x-coordinate 30 and
y-coordinate 10: it contains `recFilter`'s point only because the point is
built in (x=longitude, y=latitude) order. -/
def polyLon30Lat10 : Polygon := ⟨fun pt => pt.x == 30 && pt.y == 10⟩

/-- A drawn feature wrapping `polyLon30Lat10`. -/
def featFilter : Feature := ⟨polyLon30Lat10⟩

/-- A site whose id matches a manifest row carrying an empty shard list. -/
def siteEmptyShards : Site := ⟨JoinId.strId ("A"), "School A", 0, 0⟩

/-- A manifest row for `siteEmptyShards` whose decoded `file_paths_json` is
the empty list. -/
def manEmptyShards : ManifestRow := ⟨JoinId.strId ("A"), []⟩

/-- A site with a numeric id, matching `manStrKey` only after the string
cast of both join keys. -/
def siteIntKey : Site := ⟨JoinId.intId 5, "X School", 1, 2⟩

/-- A manifest row with a string id equal to the decimal rendering of
`siteIntKey`'s numeric id. -/
def manStrKey : ManifestRow := ⟨JoinId.strId ("5"), ["shard_a.parquet"]⟩

/-- A shard row with both coordinates present but a null address text. -/
def rowNullAddr : ShardRow := ⟨some 34, some (-118), none⟩

/-- A string containing the ASCII hyphen is not empty. -/
theorem ne_empty_of_pyContainsDash {s : String} (h : pyContainsDash s = true) :
    s ≠ "" := by
  intro he
  subst he
  simp [pyContainsDash] at h

/-- Claim C6: when the tagging step cannot disambiguate the labels of a
line (the `RepeatedLabelError` branch), `parse_address_expanded` returns
exactly one row whose structured fields are all empty and whose `Original`
equals the input line. -/
theorem parse_repeated_label_C6 (tag : String → TagResult) (l : String)
    (h : tag l = TagResult.repeatedLabelError) :
    parse_address_expanded tag (some l) = [⟨"", "", "", "", "", l⟩] := by
  simp [parse_address_expanded, h]

/-- Witness for C6 at the spec's own example line, with a tagger that
raises `RepeatedLabelError`. -/
theorem parse_repeated_label_C6_witness :
    parse_address_expanded tagRepeatErr (some ("not a real address at all")) =
      [⟨"", "", "", "", "", "not a real address at all"⟩] :=
  parse_repeated_label_C6 tagRepeatErr ("not a real address at all") rfl

/-- Counterexample to claim C4: the empty string passes the
`isinstance(line, str)` check, so with a tagger that extracts no labels
from it the parser returns one row, not the empty sequence the claim
demands. -/
theorem parse_empty_string_C4_counterexample :
    parse_address_expanded tagEmptyLabels (some ("")) ≠ [] := by
  decide

/-- Claim C4 as amended: `parse(None)` returns the empty sequence for
every tagger, but `parse("")` is processed as an ordinary string: with a
tagger extracting no labels it yields one row with every field empty. -/
theorem parse_none_empty_C4_amended :
    (∀ tag : String → TagResult, parse_address_expanded tag none = []) ∧
    parse_address_expanded tagEmptyLabels (some ("")) =
      [⟨"", "", "", "", "", ""⟩] :=
  ⟨fun _ => rfl, by decide⟩

/-- Counterexample to claim C2: a unit token containing only the en-dash
variant does split into two integer parts after normalization, yet the
source checks for the ASCII hyphen before normalizing, so no expansion
happens and the single returned row keeps the raw token. -/
theorem unitRange_enDash_C2_counterexample :
    ((pySplitDash (pyReplaceDash ("4–6"))).length = 2 ∧
      pyIsDigit ((pySplitDash (pyReplaceDash ("4–6"))).getD 0 ("")) = true ∧
      pyIsDigit ((pySplitDash (pyReplaceDash ("4–6"))).getD 1 ("")) = true) ∧
    parse_address_expanded tagEnDashOnly (some ("10 Main 4–6")) =
      [⟨"10 Main", "4–6", "", "", "", "10 Main 4–6"⟩] ∧
    (parse_address_expanded tagEnDashOnly (some ("10 Main 4–6"))).map
      (fun r => r.Unit) ≠ ["4", "5", "6"] := by
  refine ⟨by decide, by decide, by decide⟩

/-- Counterexample to claim C3: a non-empty line whose tagged unit token
is the inverted range `5-3` makes the expansion loop run zero times, and
the parser returns the empty sequence. -/
theorem parse_inverted_range_C3_counterexample :
    (("10 Main St 5-3" : String) ≠ "") ∧
    parse_address_expanded tagInverted (some ("10 Main St 5-3")) = [] := by
  refine ⟨by decide, by decide⟩

/-- Counterexample to claim C5: with a pre-directional and a post-type but
no street name, the four-element join leaves two adjacent spaces that
`strip` does not collapse, so the returned street address contains a
repeated internal space. -/
theorem street_assembly_C5_counterexample :
    (parse_address_expanded tagGapComponents (some ("123 N Fake St"))).map
      (fun r => r.Address) = ["123 N  St"] ∧
    hasDoubleSpace ("123 N  St") = true := by
  refine ⟨by decide, by decide⟩

/-- Claim C7: when the extracted unit token contains an ASCII hyphen but
its normalized split is not exactly two digit parts, the parser falls
through to the single-row case and the row's `Unit` is the raw token. -/
theorem parse_raw_unit_fallthrough_C7 (tag : String → TagResult) (l : String)
    (m : TagMap) (htag : tag l = TagResult.tagged m)
    (hdash : pyContainsDash m.OccupancyIdentifier = true)
    (hnot : ¬ ((pySplitDash (pyReplaceDash m.OccupancyIdentifier)).length = 2 ∧
      pyIsDigit ((pySplitDash (pyReplaceDash m.OccupancyIdentifier)).getD 0 ("")) = true ∧
      pyIsDigit ((pySplitDash (pyReplaceDash m.OccupancyIdentifier)).getD 1 ("")) = true)) :
    parse_address_expanded tag (some l) =
      [⟨fullAddressOf m, m.OccupancyIdentifier, m.PlaceName, m.StateName,
        m.ZipCode, l⟩] := by
  have hne := ne_empty_of_pyContainsDash hdash
  simp only [parse_address_expanded, htag]
  rw [if_pos ⟨hne, hdash⟩, if_neg hnot]

/-- Witness for C7 at the hyphenated non-numeric unit token `4-B`. -/
theorem parse_raw_unit_fallthrough_C7_witness :
    parse_address_expanded tagUnitLetter (some ("77 Oak 4-B")) =
      [⟨fullAddressOf mapUnitLetter, "4-B", "", "", "", "77 Oak 4-B"⟩] :=
  parse_raw_unit_fallthrough_C7 tagUnitLetter ("77 Oak 4-B") mapUnitLetter rfl
    (by decide) (by decide)

/-- Claim C2 as amended: the expansion requires the raw unit token to
contain the ASCII hyphen (the en-dash is normalized only after that
check); under that condition, when the normalized token splits into
exactly two digit parts, the parser returns one row per integer of the
inclusive range, all rows sharing every other field and carrying the
decimal string of their integer as `Unit`. -/
theorem unitRange_expansion_C2_amended (tag : String → TagResult) (l : String)
    (m : TagMap) (htag : tag l = TagResult.tagged m)
    (hdash : pyContainsDash m.OccupancyIdentifier = true)
    (hlen : (pySplitDash (pyReplaceDash m.OccupancyIdentifier)).length = 2)
    (hd0 : pyIsDigit ((pySplitDash (pyReplaceDash m.OccupancyIdentifier)).getD 0 ("")) = true)
    (hd1 : pyIsDigit ((pySplitDash (pyReplaceDash m.OccupancyIdentifier)).getD 1 ("")) = true) :
    parse_address_expanded tag (some l) =
      (List.range'
        (pyInt ((pySplitDash (pyReplaceDash m.OccupancyIdentifier)).getD 0 ("")))
        (pyInt ((pySplitDash (pyReplaceDash m.OccupancyIdentifier)).getD 1 ("")) + 1 -
          pyInt ((pySplitDash (pyReplaceDash m.OccupancyIdentifier)).getD 0 ("")))).map
        (fun u => ⟨fullAddressOf m, pyStr u, m.PlaceName, m.StateName,
          m.ZipCode, l⟩) := by
  have hne := ne_empty_of_pyContainsDash hdash
  simp only [parse_address_expanded, htag]
  rw [if_pos ⟨hne, hdash⟩, if_pos ⟨hlen, hd0, hd1⟩]

/-- Witness for C2 at the spec's round-trip example: the unit range `4-6`
expands to three rows with units 4, 5 and 6 sharing all other fields. -/
theorem unitRange_expansion_C2_witness :
    parse_address_expanded tagRange46 (some lineRange46) =
      [⟨"123 N Main St", "4", "Springfield", "IL", "60001", lineRange46⟩,
       ⟨"123 N Main St", "5", "Springfield", "IL", "60001", lineRange46⟩,
       ⟨"123 N Main St", "6", "Springfield", "IL", "60001", lineRange46⟩] := by
  rw [unitRange_expansion_C2_amended tagRange46 lineRange46 mapRange46 rfl
    (by decide) (by decide) (by decide) (by decide)]
  decide

/-- Claim C3 as amended: a string line always produces at least one row,
except when the tagged unit token is an ASCII-hyphenated range of two
digit parts with the first strictly larger than the second, in which case
the expansion loop runs zero times and zero rows are returned. -/
theorem parse_nonempty_output_C3_amended (tag : String → TagResult)
    (l : String) (_hne : l ≠ "")
    (h : ∀ m : TagMap, tag l = TagResult.tagged m →
      invertedRangeUnit m.OccupancyIdentifier = false) :
    parse_address_expanded tag (some l) ≠ [] := by
  cases htag : tag l with
  | repeatedLabelError => simp [parse_address_expanded, htag]
  | tagged m =>
    have hm := h m htag
    simp only [parse_address_expanded, htag]
    by_cases h1 : m.OccupancyIdentifier ≠ "" ∧
        pyContainsDash m.OccupancyIdentifier = true
    · rw [if_pos h1]
      by_cases h2 : (pySplitDash (pyReplaceDash m.OccupancyIdentifier)).length = 2 ∧
          pyIsDigit ((pySplitDash (pyReplaceDash m.OccupancyIdentifier)).getD 0 ("")) = true ∧
          pyIsDigit ((pySplitDash (pyReplaceDash m.OccupancyIdentifier)).getD 1 ("")) = true
      · rw [if_pos h2]
        obtain ⟨hlen, hd0, hd1⟩ := h2
        obtain ⟨-, hdash⟩ := h1
        simp only [invertedRangeUnit, hdash, hlen, hd0, hd1, beq_self_eq_true,
          Bool.true_and, Bool.and_eq_false_iff, decide_eq_false_iff_not,
          not_lt] at hm
        intro hcontra
        have hlens := congrArg List.length hcontra
        simp only [List.length_map, List.length_range', List.length_nil] at hlens
        omega
      · rw [if_neg h2]
        simp
    · rw [if_neg h1]
      simp

/-- Witness for C3: a tagger with no labels never triggers the inverted
range case, so a non-empty line yields a non-empty row list. -/
theorem parse_nonempty_output_C3_witness :
    parse_address_expanded tagEmptyLabels (some ("abc")) ≠ [] :=
  parse_nonempty_output_C3_amended tagEmptyLabels ("abc") (by decide)
    (fun m hm => by
      have h2 : TagResult.tagged {} = TagResult.tagged m := hm
      cases h2
      decide)

/-- The result of a Python strip has no leading whitespace left to drop. -/
theorem dropWhile_pyStripData (cs : List Char) :
    (pyStripData cs).dropWhile Char.isWhitespace = pyStripData cs := by
  cases hX : pyStripData cs with
  | nil => rfl
  | cons x xs =>
    obtain ⟨t, ht⟩ :=
      List.dropWhile_suffix (l := (cs.dropWhile Char.isWhitespace).reverse)
        (p := Char.isWhitespace)
    have hA : cs.dropWhile Char.isWhitespace = pyStripData cs ++ t.reverse := by
      have h2 := congrArg List.reverse ht
      simp only [List.reverse_append, List.reverse_reverse] at h2
      simpa [pyStripData] using h2.symm
    rw [hX] at hA
    have hlen : 0 < (cs.dropWhile Char.isWhitespace).length := by
      rw [hA]; simp
    have hnp := List.dropWhile_get_zero_not Char.isWhitespace cs hlen
    have hget : (cs.dropWhile Char.isWhitespace).get ⟨0, hlen⟩ = x := by
      simp [hA]
    rw [hget] at hnp
    simp [List.dropWhile_cons, hnp]

/-- Python strip is idempotent on character lists. -/
theorem pyStripData_idem (cs : List Char) :
    pyStripData (pyStripData cs) = pyStripData cs := by
  have h1 := dropWhile_pyStripData cs
  show (((pyStripData cs).dropWhile Char.isWhitespace).reverse.dropWhile
    Char.isWhitespace).reverse = pyStripData cs
  rw [h1]
  simp [pyStripData, List.reverse_reverse, List.dropWhile_idempotent]

/-- Python strip is idempotent: a stripped string has no leading or
trailing whitespace left. -/
theorem pyStrip_idem (s : String) : pyStrip (pyStrip s) = pyStrip s :=
  congrArg String.mk (pyStripData_idem s.data)

/-- Claim C5 as amended: every row returned for a tagged line carries as
`Address` the house number joined by one space to the four street
components joined by single spaces, with leading and trailing whitespace
stripped at both assembly steps (an empty interior component leaves a
repeated internal space, which is not collapsed); the `Address` itself is
strip-stable, and city, state, zip and the original line are copied from
the tag map and input. -/
theorem street_assembly_C5_amended (tag : String → TagResult) (l : String)
    (m : TagMap) (htag : tag l = TagResult.tagged m) :
    ∀ row ∈ parse_address_expanded tag (some l),
      row.Address = fullAddressOf m ∧ pyStrip row.Address = row.Address ∧
      row.City = m.PlaceName ∧ row.State = m.StateName ∧
      row.ZIP = m.ZipCode ∧ row.Original = l := by
  have hstrip : pyStrip (fullAddressOf m) = fullAddressOf m := by
    unfold fullAddressOf
    exact pyStrip_idem _
  intro row hrow
  simp only [parse_address_expanded, htag] at hrow
  split at hrow
  · split at hrow
    · simp only [List.mem_map] at hrow
      obtain ⟨u, -, rfl⟩ := hrow
      exact ⟨rfl, hstrip, rfl, rfl, rfl, rfl⟩
    · simp only [List.mem_singleton] at hrow
      subst hrow
      exact ⟨rfl, hstrip, rfl, rfl, rfl, rfl⟩
  · simp only [List.mem_singleton] at hrow
    subst hrow
    exact ⟨rfl, hstrip, rfl, rfl, rfl, rfl⟩

/-- Witness for C5: the gap-component row's address is the assembled
string (with its uncollapsed interior gap) and is strip-stable. -/
theorem street_assembly_C5_witness :
    (⟨"123 N  St", "", "", "", "", "123 N Fake St"⟩ : ParsedAddressRow).Address =
      fullAddressOf mapGapComponents ∧
    pyStrip ("123 N  St") = "123 N  St" := by
  have h := street_assembly_C5_amended tagGapComponents ("123 N Fake St")
    mapGapComponents rfl
    (⟨"123 N  St", "", "", "", "", "123 N Fake St"⟩ : ParsedAddressRow)
    (by decide)
  exact ⟨h.1, h.2.1⟩

/-- Claim C1: with a non-empty drawn-feature set, the filter step runs and
a record is kept exactly when the point built as (x=longitude, y=latitude)
is contained in at least one drawn polygon; with no drawn features the
filter step does not run at all and no result set is produced. -/
theorem spatialFilter_members_iff_C1 (records : List AddressRecord)
    (features : List Feature) :
    (features = [] → runFilterStep records features = none) ∧
    (features ≠ [] →
      runFilterStep records features =
        some (spatialFilter records (features.map (fun f => f.geometry))) ∧
      ∀ r, r ∈ spatialFilter records (features.map (fun f => f.geometry)) ↔
        r ∈ records ∧ ∃ f ∈ features, f.geometry.contains (mkPoint r) = true) := by
  constructor
  · rintro rfl
    rfl
  · intro h
    obtain ⟨f0, fs, rfl⟩ : ∃ f0 fs, features = f0 :: fs := by
      cases features with
      | nil => exact absurd rfl h
      | cons a t => exact ⟨a, t, rfl⟩
    refine ⟨rfl, ?_⟩
    intro r
    simp only [spatialFilter, List.mem_filter, filtered_mask, List.any_eq_true,
      List.mem_map]
    constructor
    · rintro ⟨hr, poly, ⟨f, hf, rfl⟩, hc⟩
      exact ⟨hr, f, hf, hc⟩
    · rintro ⟨hr, f, hf, hc⟩
      exact ⟨hr, f.geometry, ⟨f, hf, rfl⟩, hc⟩

/-- Witness for C1: the record at longitude 30, latitude 10 is kept by the
polygon containing the point with x 30 and y 10, and drawing nothing
withholds the filter output. -/
theorem spatialFilter_members_iff_C1_witness :
    runFilterStep [recFilter] [] = none ∧
    runFilterStep [recFilter] [featFilter] =
      some (spatialFilter [recFilter] ([featFilter].map (fun f => f.geometry))) ∧
    recFilter ∈ spatialFilter [recFilter] ([featFilter].map (fun f => f.geometry)) ∧
    spatialFilter [recFilter] ([featFilter].map (fun f => f.geometry)) =
      [recFilter] := by
  refine ⟨(spatialFilter_members_iff_C1 [recFilter] []).1 rfl, ?_, ?_, rfl⟩
  · exact ((spatialFilter_members_iff_C1 [recFilter] [featFilter]).2
      (by simp)).1
  · exact (((spatialFilter_members_iff_C1 [recFilter] [featFilter]).2
      (by simp)).2 recFilter).mpr ⟨by simp, featFilter, by simp, rfl⟩

/-- The shard-download loop splits its accumulator pair into the fetched
tables (in input order) and the failed urls (in input order). -/
theorem loadLoop_append (fetch : String → Option (List ShardRow))
    (urls : List String) (acc1 : List (List ShardRow)) (acc2 : List String) :
    urls.foldl
      (fun acc url =>
        match fetch url with
        | some df => (acc.1 ++ [df], acc.2)
        | none => (acc.1, acc.2 ++ [url]))
      (acc1, acc2) =
    (acc1 ++ urls.filterMap fetch,
      acc2 ++ urls.filter (fun u => (fetch u).isNone)) := by
  induction urls generalizing acc1 acc2 with
  | nil => simp
  | cons u rest ih =>
    rw [List.foldl_cons]
    cases hf : fetch u with
    | some df =>
      simp only [hf]
      rw [ih]
      simp [hf, List.filterMap_cons, List.filter_cons, List.append_assoc]
    | none =>
      simp only [hf]
      rw [ih]
      simp [hf, List.filterMap_cons, List.filter_cons, List.append_assoc]

/-- Closed form of `load_address_data`: the merged table is the
concatenation, in shard order, of exactly the successfully fetched
shards, and the failure list is the url of every failed path, in order. -/
theorem load_address_data_eq (fetch : String → Option (List ShardRow))
    (paths : List String) :
    load_address_data fetch paths =
      ((paths.filterMap (fun q => fetch (SUPABASE_BASE_URL ++ q))).flatten,
        (paths.filter (fun q => (fetch (SUPABASE_BASE_URL ++ q)).isNone)).map
          (fun q => SUPABASE_BASE_URL ++ q)) := by
  cases paths with
  | nil => rfl
  | cons p ps =>
    simp only [load_address_data]
    rw [loadLoop_append]
    simp only [List.nil_append, List.filterMap_map, List.filter_map,
      Function.comp_def]
    split
    case isTrue h => exact absurd h (by simp)
    case isFalse h =>
      split
      case isTrue h2 => rw [h2]; rfl
      case isFalse h2 => rfl

/-- Claim C9: the loader returns the concatenation (within-shard and
across-shard order preserved, no deduplication) of exactly the shards
that fetched successfully, together with a failed-url list sized to the
number of unreachable shards; one shard's failure never drops another
shard, and the empty path list yields an empty table and an empty failed
list. -/
theorem load_partial_failure_C9 (fetch : String → Option (List ShardRow))
    (paths : List String) :
    load_address_data fetch [] = ([], []) ∧
    (load_address_data fetch paths).1 =
      (paths.filterMap (fun q => fetch (SUPABASE_BASE_URL ++ q))).flatten ∧
    (load_address_data fetch paths).2 =
      (paths.filter (fun q => (fetch (SUPABASE_BASE_URL ++ q)).isNone)).map
        (fun q => SUPABASE_BASE_URL ++ q) ∧
    (load_address_data fetch paths).2.length =
      (paths.filter (fun q => (fetch (SUPABASE_BASE_URL ++ q)).isNone)).length := by
  refine ⟨rfl, ?_, ?_, ?_⟩
  · rw [load_address_data_eq]
  · rw [load_address_data_eq]
  · rw [load_address_data_eq]
    exact List.length_map _ _

/-- A key absent from the manifest keys matches no manifest row. -/
theorem filter_key_eq_nil (manifest : List ManifestRow) (k : String)
    (h : k ∉ manifest.map (fun m => astypeStr m.boundary_id)) :
    manifest.filter (fun m => astypeStr m.boundary_id = k) = [] := by
  induction manifest with
  | nil => rfl
  | cons a t ih =>
    simp only [List.map_cons, List.mem_cons, not_or] at h
    obtain ⟨h1, h2⟩ := h
    rw [List.filter_cons, if_neg (by
      simp only [decide_eq_true_eq]
      exact fun he => h1 he.symm)]
    exact ih h2

/-- Under pairwise-distinct string-cast manifest keys, filtering by a key
agrees with the first match. -/
theorem filter_key_eq_find (manifest : List ManifestRow) (k : String)
    (hk : (manifest.map (fun m => astypeStr m.boundary_id)).Nodup) :
    manifest.filter (fun m => astypeStr m.boundary_id = k) =
      (manifest.find? (fun m => astypeStr m.boundary_id = k)).toList := by
  induction manifest with
  | nil => rfl
  | cons a t ih =>
    simp only [List.map_cons, List.nodup_cons] at hk
    obtain ⟨hna, ht⟩ := hk
    by_cases hak : astypeStr a.boundary_id = k
    · rw [List.filter_cons, if_pos (by simp [hak]),
        List.find?_cons_of_pos _ (by simp [hak])]
      rw [filter_key_eq_nil t k (by rw [← hak]; exact hna)]
      rfl
    · rw [List.filter_cons, if_neg (by simp [hak]),
        List.find?_cons_of_neg _ (by simp [hak])]
      exact ih ht

/-- Counterexample to claim C8: a manifest row whose decoded shard list is
empty still matches its site, so every resolved site has an empty shard
list, yet resolution succeeds — the fatal check fires only on a null
(unmatched) merge column, not on an empty shard list. -/
theorem resolve_empty_shards_C8_counterexample :
    resolveStep [siteEmptyShards] [manEmptyShards] =
      Except.ok [(siteEmptyShards, some [])] ∧
    (school_data_merged [siteEmptyShards] [manEmptyShards]).all
      (fun q => (q.2.getD []).isEmpty) = true := by
  refine ⟨rfl, rfl⟩

/-- Claim C8 as amended: with pairwise-distinct manifest keys, the merge
is a left join on string-cast ids producing exactly one row per site (its
first manifest match, or a null shard column when nothing matches), and
the fatal configuration error fires exactly when every site's merged
shard column is null, i.e. the join matched nothing system-wide; a
matched site whose decoded shard list is empty does not trigger it. -/
theorem resolve_leftjoin_C8_amended (schools : List Site)
    (manifest : List ManifestRow)
    (hkeys : (manifest.map (fun m => astypeStr m.boundary_id)).Nodup) :
    school_data_merged schools manifest =
      schools.map (fun s =>
        (s, (manifest.find?
          (fun m => astypeStr m.boundary_id = astypeStr s.EKEY_5)).map
            (fun m => m.file_paths_json))) ∧
    (resolveStep schools manifest = Except.error mergeFailedMsg ↔
      ∀ q ∈ school_data_merged schools manifest, q.2 = none) := by
  constructor
  · induction schools with
    | nil => rfl
    | cons s ss ih =>
      simp only [school_data_merged, List.flatMap_cons, List.map_cons] at ih ⊢
      rw [filter_key_eq_find manifest (astypeStr s.EKEY_5) hkeys, ih]
      cases hf : manifest.find?
          (fun m => astypeStr m.boundary_id = astypeStr s.EKEY_5) with
      | none => simp [Option.toList]
      | some m => simp [Option.toList]
  · simp only [resolveStep]
    split
    case isTrue hall =>
      constructor
      · intro _ q hq
        have h2 := List.all_eq_true.mp hall q hq
        exact Option.isNone_iff_eq_none.mp (by simpa using h2)
      · intro _
        rfl
    case isFalse hall =>
      constructor
      · intro he
        exact Except.noConfusion he
      · intro hq
        exact absurd (List.all_eq_true.mpr fun q hq2 => by
          simpa using Option.isNone_iff_eq_none.mpr (hq q hq2)) hall

/-- Witness for C8: a numeric site id 5 joins the string manifest id
`"5"` after the string cast of both keys, the site resolves to its shard
list, and no fatal error is raised. -/
theorem resolve_leftjoin_C8_witness :
    school_data_merged [siteIntKey] [manStrKey] =
      [(siteIntKey, some ["shard_a.parquet"])] ∧
    resolveStep [siteIntKey] [manStrKey] ≠ Except.error mergeFailedMsg := by
  have h := resolve_leftjoin_C8_amended [siteIntKey] [manStrKey] (by decide)
  have hmerged : school_data_merged [siteIntKey] [manStrKey] =
      [(siteIntKey, some ["shard_a.parquet"])] := by
    rw [h.1]
    rfl
  refine ⟨hmerged, ?_⟩
  intro he
  have h3 := (h.2.mp he) (siteIntKey, some ["shard_a.parquet"])
    (by rw [hmerged]; exact List.mem_singleton.mpr rfl)
  exact Option.noConfusion h3

/-- Claim C10: a row with both coordinates present but a null address text
survives the coordinate `dropna` unchanged, and the parsing stage emits
zero rows for it (no sentinel row), so it silently disappears from the
parsed output. -/
theorem dropna_parse_null_address_C10 (tag : String → TagResult)
    (r : ShardRow) (df : List ShardRow) (haddr : r.FullAddress = none)
    (hlat : r.LAT.isSome = true) (hlon : r.LON.isSome = true) :
    dropnaGeo (r :: df) = r :: dropnaGeo df ∧
    parsedRowsStage tag (r :: df) = parsedRowsStage tag df := by
  constructor
  · simp [dropnaGeo, List.filter_cons, hlat, hlon]
  · simp [parsedRowsStage, List.flatMap_cons, haddr, parse_address_expanded]

/-- Witness for C10 at a concrete coordinate-bearing, address-less row. -/
theorem dropna_parse_null_address_C10_witness :
    dropnaGeo [rowNullAddr] = [rowNullAddr] ∧
    parsedRowsStage tagEmptyLabels [rowNullAddr] =
      parsedRowsStage tagEmptyLabels [] :=
  dropna_parse_null_address_C10 tagEmptyLabels rowNullAddr [] rfl rfl rfl

end CRaddress
